import Mathlib

/-!
Verification of the Multi-Platform Campaign Builder (src/app1.py).

The file embeds the pure core of the application:
 * `CampaignData` — the `campaign_data` dictionary restricted to the keys the
   program reads/writes; a key that is absent is `none` (Python `dict.get`
   with a default corresponds to `Option.getD`).
 * `generate_prompt_sequence` — `CampaignBuilder.generate_prompt_sequence`
   (app1.py lines 44–95).
 * `generate_timeline` — the timeline construction inside `main`
   (app1.py lines 293–304).
 * `SessionState`, `goTo`, `resetCampaign`, `enterPromptGeneration`,
   `renderStep` — the Streamlit session state and the state effects of the
   sidebar navigation, the reset buttons and the step dispatch.
-/

/-- One generated prompt: the dict
`{"phase": ..., "platform": ..., "prompt": ...}` appended by
`generate_prompt_sequence`. -/
structure PromptRecord where
  phase : String
  platform : String
  prompt : String
deriving DecidableEq, Repr

/-- One timeline row: the dict appended to `timeline_data`
(app1.py lines 298–304). -/
structure TimelineRow where
  week : String
  phase : String
  platform : String
  task : String
  status : String
deriving DecidableEq, Repr

/-- The `campaign_data` dictionary, restricted to the keys the program ever
writes or reads.  `none` models an absent key, so `Option.getD` is exactly
Python's `dict.get(key, default)`. -/
structure CampaignData where
  product_name : Option String := none
  target_audience : Option String := none
  campaign_duration : Option String := none
  key_message : Option String := none
  campaign_goal : Option String := none
  budget_tier : Option String := none
  selected_platforms : Option (List String) := none
  campaign_phases : Option (List String) := none
deriving DecidableEq, Repr

/-- The empty dict `{}` used to initialise and to reset `campaign_data`. -/
def emptyCampaignData : CampaignData := {}

/-- `CampaignBuilder.platforms` (app1.py line 41). -/
def builderPlatforms : List String :=
  ["Instagram", "TikTok", "Email", "Twitter", "LinkedIn", "Facebook"]

/-- `CampaignBuilder.campaign_phases` (app1.py line 42). -/
def builderPhases : List String :=
  ["Awareness", "Consideration", "Conversion", "Retention"]

/-- The Foundation f-string (app1.py lines 59–66), with the exact literal
text including the 12 trailing spaces on its second line. -/
def foundationPrompt (product_name target_audience key_message : String)
    (selected_platforms : List String) : String :=
  "Act as a senior marketing strategist. Create a multi-platform campaign for:\n            \nProduct: "
    ++ product_name
    ++ "\nTarget Audience: " ++ target_audience
    ++ "\nKey Message: " ++ key_message
    ++ "\nPlatforms: " ++ String.intercalate ", " selected_platforms
    ++ "\n\nPropose a weekly strategy with specific goals for each platform."

/-- The per-platform content f-string (app1.py lines 74–78).  `phase0` is
the value of `campaign_phases[0] if campaign_phases else 'Awareness'`. -/
def contentPrompt (platform phase0 target_audience : String) : String :=
  "For " ++ platform ++ ", generate 3-5 content ideas for the "
    ++ phase0 ++ " phase targeting " ++ target_audience
    ++ ". Focus on:\n- Platform-best practices for " ++ platform
    ++ "\n- Content format recommendations\n- Hashtag strategy\n- Engagement tactics"

/-- The asset-development f-string (app1.py lines 85–92). -/
def assetPrompt (product_name : String) : String :=
  "Create specific copy and content guidelines for:\nProduct: " ++ product_name
    ++ "\n\nInclude:\n- 5 email subject lines\n- 3 Instagram carousel concepts\n- 2 TikTok script outlines\n- Social media post templates"

/-- `CampaignBuilder.generate_prompt_sequence` (app1.py lines 44–95):
resolve the five fields with `dict.get` defaults, then append the
Foundation record, one Content Creation record per selected platform and
the Asset Development record. -/
def generate_prompt_sequence (campaign_data : CampaignData) : List PromptRecord :=
  let product_name := campaign_data.product_name.getD "Your Product"
  let target_audience := campaign_data.target_audience.getD "your target audience"
  let key_message := campaign_data.key_message.getD "your key message"
  let selected_platforms := campaign_data.selected_platforms.getD ["Instagram", "TikTok"]
  let campaign_phases := campaign_data.campaign_phases.getD ["Awareness"]
  [{ phase := "Foundation", platform := "All",
     prompt := foundationPrompt product_name target_audience key_message selected_platforms }]
  ++ selected_platforms.map (fun platform =>
      { phase := "Content Creation", platform := platform,
        prompt := contentPrompt platform (campaign_phases.headD "Awareness") target_audience })
  ++ [{ phase := "Asset Development", platform := "All",
        prompt := assetPrompt product_name }]

/-- One row of the timeline loop body (app1.py lines 298–304); `i` is the
0-based index of the phase in the outer `enumerate`. -/
def mkTimelineRow (i : Nat) (phase platform : String) : TimelineRow :=
  { week := "Week " ++ toString (i + 1)
    phase := phase
    platform := platform
    task := "Create " ++ platform ++ " content for " ++ phase
    status := "Planned" }

/-- The timeline construction in `main` (app1.py lines 293–304): nested
loops, outer over `campaign_phases` with `enumerate`, inner over
`selected_platforms`, appending one row per pair. -/
def generate_timeline (campaign_phases selected_platforms : List String) :
    List TimelineRow :=
  campaign_phases.enum.flatMap fun ip =>
    selected_platforms.map fun platform => mkTimelineRow ip.1 ip.2 platform

/-- The Streamlit session state the program reads and writes
(app1.py lines 101–106). -/
structure SessionState where
  campaign_data : CampaignData
  prompts : List PromptRecord
  current_step : Nat
deriving DecidableEq, Repr

/-- The fresh session state (app1.py lines 101–106). -/
def initialSession : SessionState :=
  { campaign_data := emptyCampaignData, prompts := [], current_step := 0 }

/-- The sidebar step labels (app1.py line 113). -/
def stepLabels : List String :=
  ["Campaign Foundation", "Platform Selection", "Content Strategy",
   "Prompt Generation", "Execution Plan"]

/-- A step index is one of the five defined steps. -/
def stepDefined (i : Nat) : Prop := i < stepLabels.length

instance (i : Nat) : Decidable (stepDefined i) := by
  unfold stepDefined; infer_instance

/-- The sidebar navigation effect (app1.py line 117):
`st.session_state.current_step = i`, with no guard of any kind. -/
def goTo (i : Nat) (s : SessionState) : SessionState :=
  { s with current_step := i }

/-- The Reset Campaign / Start New Campaign effect
(app1.py lines 121–125 and 378–382): `campaign_data = {}`, `prompts = []`,
`current_step = 0`. -/
def resetCampaign (_s : SessionState) : SessionState :=
  { campaign_data := emptyCampaignData, prompts := [], current_step := 0 }

/-- The prompt-generation-on-entry effect of step 3
(app1.py lines 262–263): generate only when `prompts` is empty. -/
def enterPromptGeneration (s : SessionState) : SessionState :=
  if s.prompts = [] then
    { s with prompts := generate_prompt_sequence s.campaign_data }
  else s

/-- The widget values the UI supplies on a render; each step's body copies
some of them into `campaign_data`. -/
structure UIInputs where
  product_name : String
  target_audience : String
  campaign_duration : String
  key_message : String
  campaign_goal : String
  budget_tier : String
  selected_platforms : List String
  campaign_phases : List String

/-- The state effect of rendering the current step (the `if/elif` dispatch,
app1.py lines 128–382): step 0 writes the foundation fields, step 1 writes
`selected_platforms`, step 2 writes `campaign_phases`, step 3 generates the
prompts when they are empty, step 4 only reads; any other value of
`current_step` matches no branch and changes nothing. -/
def renderStep (ui : UIInputs) (s : SessionState) : SessionState :=
  if s.current_step = 0 then
    { s with campaign_data :=
        { s.campaign_data with
            product_name := some ui.product_name
            target_audience := some ui.target_audience
            campaign_duration := some ui.campaign_duration
            key_message := some ui.key_message
            campaign_goal := some ui.campaign_goal
            budget_tier := some ui.budget_tier } }
  else if s.current_step = 1 then
    { s with campaign_data :=
        { s.campaign_data with selected_platforms := some ui.selected_platforms } }
  else if s.current_step = 2 then
    { s with campaign_data :=
        { s.campaign_data with campaign_phases := some ui.campaign_phases } }
  else if s.current_step = 3 then
    enterPromptGeneration s
  else if s.current_step = 4 then
    s
  else
    s

/-- `generate_prompt_sequence` always produces at least the Foundation
record, so its output is never empty. -/
lemma generate_prompt_sequence_ne_nil (cd : CampaignData) :
    generate_prompt_sequence cd ≠ [] := by
  unfold generate_prompt_sequence
  simp

/-- C1: for every CampaignData whose `selected_platforms` key is present
with value `ps` of length `k`, `generate_prompt_sequence` returns exactly
`k + 2` records, the first with phase `"Foundation"`, the last with phase
`"Asset Development"`. -/
theorem prompt_sequence_shape (cd : CampaignData) (ps : List String)
    (h : cd.selected_platforms = some ps) :
    (generate_prompt_sequence cd).length = ps.length + 2 ∧
    ((generate_prompt_sequence cd).head?).map (fun r => r.phase) = some "Foundation" ∧
    ((generate_prompt_sequence cd).getLast?).map (fun r => r.phase) =
      some "Asset Development" := by
  unfold generate_prompt_sequence
  rw [h]
  refine ⟨?_, ?_, ?_⟩
  · simp
  · simp
  · rw [List.getLast?_concat]
    rfl

/-- Witness for C1 at a concrete one-platform input. -/
theorem prompt_sequence_shape_witness :
    (generate_prompt_sequence { selected_platforms := some ["Email"] }).length =
      (["Email"] : List String).length + 2 ∧
    ((generate_prompt_sequence { selected_platforms := some ["Email"] }).head?).map
      (fun r => r.phase) = some "Foundation" ∧
    ((generate_prompt_sequence { selected_platforms := some ["Email"] }).getLast?).map
      (fun r => r.phase) = some "Asset Development" :=
  prompt_sequence_shape { selected_platforms := some ["Email"] } ["Email"] rfl

/-- C3 counterexample: on the empty dict the generator returns 4 records
(Foundation, one per default platform Instagram and TikTok, Asset
Development), not the 3 records the claim states. -/
theorem empty_data_not_three_records :
    (generate_prompt_sequence emptyCampaignData).length = 4 ∧
    (generate_prompt_sequence emptyCampaignData).length ≠ 3 := by
  refine ⟨?_, ?_⟩ <;> decide

/-- C3 (amended): on the empty dict the generator returns exactly 4
records — Foundation, one Content Creation record per default platform
(Instagram then TikTok), Asset Development — all built from the documented
defaults, and no produced prompt text contains unresolved placeholder
syntax (no brace character occurs in any prompt). -/
theorem empty_data_default_records :
    (generate_prompt_sequence emptyCampaignData).length = 4 ∧
    (generate_prompt_sequence emptyCampaignData).map (fun r => r.phase) =
      ["Foundation", "Content Creation", "Content Creation", "Asset Development"] ∧
    (generate_prompt_sequence emptyCampaignData).map (fun r => r.platform) =
      ["All", "Instagram", "TikTok", "All"] ∧
    (generate_prompt_sequence emptyCampaignData).map
        (fun r => (r.prompt.data.contains '\x7b', r.prompt.data.contains '\x7d')) =
      [(false, false), (false, false), (false, false), (false, false)] := by
  refine ⟨by decide, by decide, by decide, by decide⟩

/-- C6: the generator is deterministic — structurally equal inputs give
structurally equal outputs (the embedding is a pure function of the
CampaignData alone; no clock, randomness or external call occurs in
app1.py lines 44–95). -/
theorem prompt_sequence_deterministic (d1 d2 : CampaignData) (h : d1 = d2) :
    generate_prompt_sequence d1 = generate_prompt_sequence d2 := by
  rw [h]

/-- Witness for C6 at a concrete input. -/
theorem prompt_sequence_deterministic_witness :
    generate_prompt_sequence emptyCampaignData =
      generate_prompt_sequence emptyCampaignData :=
  prompt_sequence_deterministic emptyCampaignData emptyCampaignData rfl

/-- C9: the records strictly between the Foundation record and the Asset
Development record are exactly one Content Creation record per selected
platform, in selection order, and every such prompt text contains the
first campaign phase (`"Awareness"` when the phase list is empty) and the
stated target audience as substrings. -/
theorem content_records_per_platform (cd : CampaignData) :
    ((generate_prompt_sequence cd).drop 1).dropLast =
      (cd.selected_platforms.getD ["Instagram", "TikTok"]).map (fun platform =>
        { phase := "Content Creation", platform := platform,
          prompt := contentPrompt platform
            ((cd.campaign_phases.getD ["Awareness"]).headD "Awareness")
            (cd.target_audience.getD "your target audience") }) ∧
    (∀ r ∈ ((generate_prompt_sequence cd).drop 1).dropLast,
      ∃ pre post : String,
        r.prompt = pre ++ ((cd.campaign_phases.getD ["Awareness"]).headD "Awareness")
          ++ post) ∧
    (∀ r ∈ ((generate_prompt_sequence cd).drop 1).dropLast,
      ∃ pre post : String,
        r.prompt = pre ++ cd.target_audience.getD "your target audience" ++ post) := by
  have hmid : ((generate_prompt_sequence cd).drop 1).dropLast =
      (cd.selected_platforms.getD ["Instagram", "TikTok"]).map (fun platform =>
        { phase := "Content Creation", platform := platform,
          prompt := contentPrompt platform
            ((cd.campaign_phases.getD ["Awareness"]).headD "Awareness")
            (cd.target_audience.getD "your target audience") }) := by
    simp only [generate_prompt_sequence, List.singleton_append, List.cons_append,
      List.drop_succ_cons, List.drop_zero, List.dropLast_concat, List.nil_append]
  refine ⟨hmid, ?_, ?_⟩
  · intro r hr
    rw [hmid] at hr
    obtain ⟨platform, _, hp⟩ := List.mem_map.mp hr
    refine ⟨"For " ++ platform ++ ", generate 3-5 content ideas for the ",
      " phase targeting " ++ cd.target_audience.getD "your target audience"
        ++ ". Focus on:\n- Platform-best practices for " ++ platform
        ++ "\n- Content format recommendations\n- Hashtag strategy\n- Engagement tactics",
      ?_⟩
    rw [← hp]
    simp [contentPrompt, String.append_assoc]
  · intro r hr
    rw [hmid] at hr
    obtain ⟨platform, _, hp⟩ := List.mem_map.mp hr
    refine ⟨"For " ++ platform ++ ", generate 3-5 content ideas for the "
        ++ ((cd.campaign_phases.getD ["Awareness"]).headD "Awareness")
        ++ " phase targeting ",
      ". Focus on:\n- Platform-best practices for " ++ platform
        ++ "\n- Content format recommendations\n- Hashtag strategy\n- Engagement tactics",
      ?_⟩
    rw [← hp]
    simp [contentPrompt, String.append_assoc]

/-- Witness for C9 at the empty dict. -/
theorem content_records_per_platform_witness :
    ((generate_prompt_sequence emptyCampaignData).drop 1).dropLast =
      ((emptyCampaignData.selected_platforms.getD ["Instagram", "TikTok"])).map
        (fun platform =>
          { phase := "Content Creation", platform := platform,
            prompt := contentPrompt platform
              ((emptyCampaignData.campaign_phases.getD ["Awareness"]).headD "Awareness")
              (emptyCampaignData.target_audience.getD "your target audience") }) :=
  (content_records_per_platform emptyCampaignData).1

/-- C10: when the `selected_platforms` key is present with an empty list,
the generator returns exactly the Foundation and Asset Development records
and no Content Creation record: the defaults apply only to absent keys,
not to present-but-empty values. -/
theorem empty_platform_list_two_records (cd : CampaignData)
    (h : cd.selected_platforms = some []) :
    (generate_prompt_sequence cd).length = 2 ∧
    (generate_prompt_sequence cd).map (fun r => r.phase) =
      ["Foundation", "Asset Development"] ∧
    ∀ r ∈ generate_prompt_sequence cd, r.phase ≠ "Content Creation" := by
  have h2 : (generate_prompt_sequence cd).map (fun r => r.phase) =
      ["Foundation", "Asset Development"] := by
    unfold generate_prompt_sequence
    rw [h]
    simp
  refine ⟨?_, h2, ?_⟩
  · have hl := congrArg List.length h2
    simpa using hl
  · intro r hr
    have hm : r.phase ∈ ["Foundation", "Asset Development"] := by
      rw [← h2]
      exact List.mem_map_of_mem _ hr
    simp at hm
    rcases hm with hm | hm <;> rw [hm] <;> decide

/-- Witness for C10 at a dict whose platform list is present but empty. -/
theorem empty_platform_list_two_records_witness :
    (generate_prompt_sequence { selected_platforms := some [] }).length = 2 ∧
    (generate_prompt_sequence { selected_platforms := some [] }).map
      (fun r => r.phase) = ["Foundation", "Asset Development"] ∧
    ∀ r ∈ generate_prompt_sequence { selected_platforms := some [] },
      r.phase ≠ "Content Creation" :=
  empty_platform_list_two_records { selected_platforms := some [] } rfl

/-- Length of the timeline built from an enumeration starting at `n`:
one row per (phase, platform) pair. -/
lemma timeline_from_length (platforms : List String) :
    ∀ (phases : List String) (n : Nat),
      ((phases.enumFrom n).flatMap fun ip =>
        platforms.map fun platform => mkTimelineRow ip.1 ip.2 platform).length =
        phases.length * platforms.length := by
  intro phases
  induction phases with
  | nil => intro n; simp
  | cons p ps ih =>
      intro n
      simp only [List.enumFrom_cons, List.flatMap_cons, List.length_append,
        List.length_map, List.length_cons, ih, Nat.succ_mul]
      omega

/-- Row `i * |platforms| + j` of the timeline built from an enumeration
starting at `n` is the row for phase `i` and platform `j`, with week index
`n + i`. -/
lemma timeline_from_getElem (platforms : List String) :
    ∀ (phases : List String) (n i j : Nat) (hi : i < phases.length)
      (hj : j < platforms.length),
      ((phases.enumFrom n).flatMap fun ip =>
        platforms.map fun platform =>
          mkTimelineRow ip.1 ip.2 platform)[i * platforms.length + j]? =
        some (mkTimelineRow (n + i) (phases.get ⟨i, hi⟩) (platforms.get ⟨j, hj⟩)) := by
  intro phases
  induction phases with
  | nil => intro n i j hi hj; exact absurd hi (Nat.not_lt_zero i)
  | cons p ps ih =>
      intro n i j hi hj
      simp only [List.enumFrom_cons, List.flatMap_cons]
      cases i with
      | zero =>
          rw [Nat.zero_mul, Nat.zero_add,
            List.getElem?_append_left (by simpa using hj), List.getElem?_map,
            List.getElem?_eq_getElem hj]
          rfl
      | succ i' =>
          have hlen : (platforms.map fun platform =>
              mkTimelineRow n p platform).length ≤ (i' + 1) * platforms.length + j := by
            simp only [List.length_map, Nat.succ_mul]
            omega
          rw [List.getElem?_append_right hlen]
          have hidx : (i' + 1) * platforms.length + j -
              (platforms.map fun platform => mkTimelineRow n p platform).length =
              i' * platforms.length + j := by
            simp only [List.length_map, Nat.succ_mul]
            omega
          rw [hidx]
          have hi' : i' < ps.length := by
            simpa using Nat.lt_of_succ_lt_succ hi
          have := ih (n + 1) i' j hi' hj
          rw [this]
          have hn : n + 1 + i' = n + (i' + 1) := by omega
          rw [hn]
          rfl

/-- C2: the timeline has one row per (phase, platform) pair in row-major
order — the row at position `i * |platforms| + j` carries week `i + 1`,
the `i`-th phase, the `j`-th platform, the task template and status
`"Planned"` — and the concrete instance of the claim holds: phases
Awareness, Conversion with platforms Instagram, Email yield exactly the
four stated rows in the stated order. -/
theorem timeline_row_major (phases platforms : List String) :
    (generate_timeline phases platforms).length = phases.length * platforms.length ∧
    (∀ (i j : Nat) (hi : i < phases.length) (hj : j < platforms.length),
      (generate_timeline phases platforms)[i * platforms.length + j]? =
        some { week := "Week " ++ toString (i + 1),
               phase := phases.get ⟨i, hi⟩,
               platform := platforms.get ⟨j, hj⟩,
               task := "Create " ++ platforms.get ⟨j, hj⟩ ++ " content for "
                 ++ phases.get ⟨i, hi⟩,
               status := "Planned" }) ∧
    generate_timeline ["Awareness", "Conversion"] ["Instagram", "Email"] =
      [{ week := "Week 1", phase := "Awareness", platform := "Instagram",
         task := "Create Instagram content for Awareness", status := "Planned" },
       { week := "Week 1", phase := "Awareness", platform := "Email",
         task := "Create Email content for Awareness", status := "Planned" },
       { week := "Week 2", phase := "Conversion", platform := "Instagram",
         task := "Create Instagram content for Conversion", status := "Planned" },
       { week := "Week 2", phase := "Conversion", platform := "Email",
         task := "Create Email content for Conversion", status := "Planned" }] := by
  refine ⟨?_, ?_, by decide⟩
  · unfold generate_timeline
    rw [List.enum_eq_enumFrom]
    exact timeline_from_length platforms phases 0
  · intro i j hi hj
    unfold generate_timeline
    rw [List.enum_eq_enumFrom]
    have hrow := timeline_from_getElem platforms phases 0 i j hi hj
    rw [hrow, Nat.zero_add]
    rfl

/-- Witness for C2: row 2 of the concrete timeline is the Week-2
Conversion/Instagram row. -/
theorem timeline_row_major_witness :
    (generate_timeline ["Awareness", "Conversion"]
        ["Instagram", "Email"])[1 * 2 + 0]? =
      some { week := "Week " ++ toString (1 + 1),
             phase := (["Awareness", "Conversion"] : List String).get ⟨1, by decide⟩,
             platform := (["Instagram", "Email"] : List String).get ⟨0, by decide⟩,
             task := "Create " ++ (["Instagram", "Email"] : List String).get ⟨0, by decide⟩
               ++ " content for " ++ (["Awareness", "Conversion"] : List String).get ⟨1, by decide⟩,
             status := "Planned" } :=
  (timeline_row_major ["Awareness", "Conversion"] ["Instagram", "Email"]).2.1
    1 0 (by decide) (by decide)

/-- C8: if either the phase list or the platform list is empty, the
timeline is empty (and, the embedding being a total function, no error is
possible). -/
theorem timeline_empty_inputs (phases platforms : List String)
    (h : phases = [] ∨ platforms = []) :
    generate_timeline phases platforms = [] := by
  rcases h with h | h
  · rw [h]
    rfl
  · rw [h]
    unfold generate_timeline
    induction phases.enum with
    | nil => rfl
    | cons p ps ih => simp [ih]

/-- Witness for C8 with an empty platform list. -/
theorem timeline_empty_inputs_witness :
    generate_timeline ["Awareness"] [] = [] :=
  timeline_empty_inputs ["Awareness"] [] (Or.inr rfl)

/-- A fixed bundle of widget values, used to instantiate render effects. -/
def uiSample : UIInputs :=
  { product_name := "EcoVibe", target_audience := "students",
    campaign_duration := "2 weeks", key_message := "reuse",
    campaign_goal := "Brand Awareness", budget_tier := "Bootstrapped",
    selected_platforms := ["Email"], campaign_phases := ["Awareness"] }

/-- A session sitting on the Prompt Generation step with no prompts yet. -/
def promptStepSession : SessionState :=
  { campaign_data := emptyCampaignData, prompts := [], current_step := 3 }

/-- C4: rendering the Prompt Generation step leaves the state unchanged
whenever `prompts` is already non-empty, and rendering the step twice
gives the same `prompts` as rendering it once (generate-once guarantee,
app1.py lines 262–263). -/
theorem prompt_generation_idempotent (ui : UIInputs) (s : SessionState)
    (h3 : s.current_step = 3) :
    (s.prompts ≠ [] → renderStep ui s = s) ∧
    (renderStep ui (renderStep ui s)).prompts = (renderStep ui s).prompts := by
  have hrender : ∀ t : SessionState, t.current_step = 3 →
      renderStep ui t = enterPromptGeneration t := by
    intro t ht
    unfold renderStep
    rw [ht]
    rfl
  constructor
  · intro hne
    rw [hrender s h3]
    unfold enterPromptGeneration
    rw [if_neg hne]
  · rw [hrender s h3]
    unfold enterPromptGeneration
    by_cases hp : s.prompts = []
    · rw [if_pos hp]
      have hstep : (⟨s.campaign_data,
          generate_prompt_sequence s.campaign_data, s.current_step⟩ :
          SessionState).current_step = 3 := h3
      rw [hrender _ hstep]
      unfold enterPromptGeneration
      rw [if_neg (generate_prompt_sequence_ne_nil s.campaign_data)]
    · rw [if_neg hp, hrender s h3]
      unfold enterPromptGeneration
      rw [if_neg hp]

/-- Witness for C4 at a concrete step-3 session. -/
theorem prompt_generation_idempotent_witness :
    (promptStepSession.prompts ≠ [] →
      renderStep uiSample promptStepSession = promptStepSession) ∧
    (renderStep uiSample (renderStep uiSample promptStepSession)).prompts =
      (renderStep uiSample promptStepSession).prompts :=
  prompt_generation_idempotent uiSample promptStepSession rfl

/-- C5: from every state, reset yields step 0 (Foundation), empty
campaign data and empty prompts; the replacement is wholesale — the
result does not depend on the state being reset at all
(app1.py lines 121–125 and 378–382). -/
theorem reset_wholesale (s : SessionState) :
    resetCampaign s = initialSession ∧
    (resetCampaign s).current_step = 0 ∧
    (resetCampaign s).campaign_data = emptyCampaignData ∧
    (resetCampaign s).prompts = [] ∧
    ∀ t : SessionState, resetCampaign s = resetCampaign t :=
  ⟨rfl, rfl, rfl, rfl, fun _ => rfl⟩

/-- C7 counterexample: navigating to step 7 — outside the five defined
steps — does not fail: `goTo` is an unguarded assignment, the resulting
state simply carries `current_step = 7`, still outside the defined
range (no InvalidStep condition exists in the code). -/
theorem goto_invalid_step_no_error :
    ¬ stepDefined 7 ∧
    (goTo 7 initialSession).current_step = 7 ∧
    ¬ stepDefined (goTo 7 initialSession).current_step := by
  refine ⟨by decide, rfl, by decide⟩

/-- C7 (amended): `goTo` with a step outside the five defined steps does
not fail and does not clamp — the out-of-range index is stored verbatim
in `current_step`, and rendering such a state matches no branch of the
step dispatch and leaves the state unchanged. -/
theorem goto_invalid_step_stored (ui : UIInputs) (s : SessionState) (i : Nat)
    (h : ¬ stepDefined i) :
    (goTo i s).current_step = i ∧
    renderStep ui (goTo i s) = goTo i s := by
  have h5 : 5 ≤ i := by
    unfold stepDefined stepLabels at h
    simp at h
    omega
  refine ⟨rfl, ?_⟩
  unfold renderStep goTo
  simp only
  rw [if_neg (by omega), if_neg (by omega), if_neg (by omega),
    if_neg (by omega), if_neg (by omega)]

/-- Witness for C7 (amended) at step index 7. -/
theorem goto_invalid_step_stored_witness :
    (goTo 7 initialSession).current_step = 7 ∧
    renderStep uiSample (goTo 7 initialSession) = goTo 7 initialSession :=
  goto_invalid_step_stored uiSample initialSession 7 (by decide)
